import Mathlib

/-!
Shallow embedding of the BMP280 I2C driver (src/bmp280.c) and proofs of the
specification claims about it.

The I2C bus and the sysfs surface are external collaborators; they are modelled
as an abstract state machine `I2CModel σ`.  Every driver entry point is embedded
as a Lean function that threads the model state and records a trace of the
externally visible operations (register reads and writes, sleeps, sysfs
attribute creation/removal).  C integer semantics are made explicit: C's
arithmetic right shift on signed values is floor division by a power of two
(`asr`), C's `/` on signed values truncates toward zero (`Int.tdiv`), and
conversions to `unsigned short` / `short` / `u8` are `toU16` / `toS16` /
`u8ofInt`.
-/

namespace BMP280

/-- C arithmetic right shift `x >> n` on a signed value: floor division by
`2 ^ n` (Euclidean division by a positive divisor is floor division). -/
def asr (x : Int) (n : Nat) : Int := Int.ediv x (2 ^ n)

/-- C left shift `x << n` on a signed value: multiplication by `2 ^ n`. -/
def shl (x : Int) (n : Nat) : Int := x * 2 ^ n

/-- C conversion of an `int` value to `u8` (truncation modulo 256). -/
def u8ofInt (x : Int) : Nat := (Int.emod x 256).toNat

/-- C conversion of an `int` value to `unsigned short` (modulo 2^16). -/
def toU16 (x : Int) : Int := Int.emod x 65536

/-- C conversion of an `int` value to `short` (two's-complement wrap). -/
def toS16 (x : Int) : Int :=
  if Int.emod x 65536 < 32768 then Int.emod x 65536 else Int.emod x 65536 - 65536

/-- One externally visible operation of the driver: a single-byte register
read (address, value returned by the bus), a single-byte register write
(address, value written, bus status), a sleep in milliseconds, or the
creation/removal of the sysfs attribute. -/
inductive Event where
  | readE : Nat → Int → Event
  | writeE : Nat → Nat → Int → Event
  | sleepE : Nat → Event
  | createFileE : Event
  | removeFileE : Event
  deriving DecidableEq, Repr

/-- Abstract model of the external collaborators: the I2C transport
(`i2c_smbus_read_byte_data` / `i2c_smbus_write_byte_data`, returning a
non-negative byte/status on success and a negative errno on failure) and
`device_create_file`.  `σ` is the hidden device/bus state. -/
structure I2CModel (σ : Type) where
  readB : σ → Nat → Int × σ
  writeB : σ → Nat → Nat → Int × σ
  createFileR : σ → Int × σ

/-- `struct bmp280_data`: the twelve calibration constants, as the integer
values held by its `unsigned short` (dig_T1, dig_P1) and `short` fields. -/
structure bmp280_data where
  dig_T1 : Int
  dig_T2 : Int
  dig_T3 : Int
  dig_P1 : Int
  dig_P2 : Int
  dig_P3 : Int
  dig_P4 : Int
  dig_P5 : Int
  dig_P6 : Int
  dig_P7 : Int
  dig_P8 : Int
  dig_P9 : Int
  deriving DecidableEq, Repr

variable {σ : Type}

/-- `read_u16_from_i2c`: reads the LSB at `addr` and the MSB at `addr + 1`;
if either read fails it returns `-1` converted to `unsigned short` (0xFFFF),
otherwise `(msb << 8) | lsb` converted to `unsigned short`.  Also returns the
final model state and the trace of the two reads. -/
def read_u16_from_i2c (M : I2CModel σ) (s : σ) (addr : Nat) : Int × σ × List Event :=
  let rl := M.readB s addr
  let rm := M.readB rl.2 (addr + 1)
  let v : Int :=
    if rl.1 < 0 ∨ rm.1 < 0 then toU16 (-1)
    else toU16 (Int.ofNat ((rm.1.toNat <<< 8) ||| rl.1.toNat))
  (v, rm.2, [Event.readE addr rl.1, Event.readE (addr + 1) rm.1])

/-- `read_s16_from_i2c`: like `read_u16_from_i2c` but the result is converted
to `short`; on failure it returns `-1`. -/
def read_s16_from_i2c (M : I2CModel σ) (s : σ) (addr : Nat) : Int × σ × List Event :=
  let rl := M.readB s addr
  let rm := M.readB rl.2 (addr + 1)
  let v : Int :=
    if rl.1 < 0 ∨ rm.1 < 0 then -1
    else toS16 (Int.ofNat ((rm.1.toNat <<< 8) ||| rl.1.toNat))
  (v, rm.2, [Event.readE addr rl.1, Event.readE (addr + 1) rm.1])

/-- Raw 20-bit ADC sample assembly `(msb << 12) | (lsb << 4) | (xlsb >> 4)`
from the three register bytes (used only on the success path, where all three
values are non-negative). -/
def assembleADC (msb lsb xlsb : Int) : Int :=
  Int.ofNat ((msb.toNat <<< 12) ||| (lsb.toNat <<< 4) ||| (xlsb.toNat >>> 4))

/-- Temperature compensation, lines 61-65 of `pressureAndTemperature_show`:
returns `(t_fine, T)`. -/
def compensate_T (d : bmp280_data) (adc_T : Int) : Int × Int :=
  let var1 := asr ((asr adc_T 3 - shl d.dig_T1 1) * d.dig_T2) 11
  let var2 := asr (asr ((asr adc_T 4 - d.dig_T1) * (asr adc_T 4 - d.dig_T1)) 12 * d.dig_T3) 14
  let t_fine := var1 + var2
  (t_fine, asr (t_fine * 5 + 128) 8)

/-- The spec's temperature formula, written from the spec text (§4.2 step 3):
`var1 = ((adc_T>>3) - (dig_T1<<1)) * dig_T2 >> 11`,
`var2 = (((adc_T>>4 - dig_T1) * (adc_T>>4 - dig_T1)) >> 12) * dig_T3 >> 14`,
`t_fine = var1 + var2`, `T = (t_fine*5 + 128) >> 8`.
Refinement counterpart to `compensate_T`. -/
def spec_compensate_T (dig_T1 dig_T2 dig_T3 adc_T : Int) : Int × Int :=
  let var1 := asr ((asr adc_T 3 - shl dig_T1 1) * dig_T2) 11
  let var2 := asr (asr ((asr adc_T 4 - dig_T1) * (asr adc_T 4 - dig_T1)) 12 * dig_T3) 14
  let t_fine := var1 + var2
  (t_fine, asr (t_fine * 5 + 128) 8)

/-- The pressure stage's `var2` accumulator (lines 81-84). -/
def pressure_var2 (d : bmp280_data) (t_fine : Int) : Int :=
  let v1 := t_fine - 128000
  v1 * v1 * d.dig_P6 + shl (v1 * d.dig_P5) 17 + shl d.dig_P4 35

/-- The pressure stage's `var1` after the `dig_P1` step (lines 81, 85-86);
the value tested by the division guard. -/
def pressure_var1 (d : bmp280_data) (t_fine : Int) : Int :=
  let v1 := t_fine - 128000
  let v1b := asr (v1 * v1 * d.dig_P3) 8 + shl (v1 * d.dig_P2) 12
  asr ((shl 1 47 + v1b) * d.dig_P1) 33

/-- Pressure compensation past the guard (lines 92-96), in Pa as Q24.8. -/
def compensate_P (d : bmp280_data) (t_fine adc_P : Int) : Int :=
  let v2 := pressure_var2 d t_fine
  let v1 := pressure_var1 d t_fine
  let p0 := 1048576 - adc_P
  let p1 := Int.tdiv ((shl p0 31 - v2) * 3125) v1
  let v1b := asr (d.dig_P9 * asr p1 13 * asr p1 13) 25
  let v2b := asr (d.dig_P8 * p1) 19
  asr (p1 + v1b + v2b) 8 + shl d.dig_P7 4

/-- The two typed acquisition failures (`-EIO` with the temperature-register
message, `-EIO` with the pressure-register message). -/
inductive ShowErr where
  | temperatureReadFailed
  | pressureReadFailed
  deriving DecidableEq, Repr

/-- Result of `pressureAndTemperature_show`: the formatted pair of whole
degrees (`T/100`) and whole Pascals (`P/256`, or the literal `0` in the
division-guard branch), or a typed error; plus the clientdata after the call,
the final model state and the trace. -/
structure ShowOut (σ : Type) where
  res : Except ShowErr (Int × Int)
  clientData : bmp280_data
  fin : σ
  trace : List Event

/-- `pressureAndTemperature_show` (lines 43-100): reads the three temperature
registers, computes `(t_fine, T)`, reads the three pressure registers, and
either takes the `var1 == 0` guard branch (pressure reported as `0`) or
computes the compensated pressure.  Any failed read aborts with the
corresponding typed error. -/
def pressureAndTemperature_show (M : I2CModel σ) (s : σ) (data : bmp280_data) : ShowOut σ :=
  let r1 := M.readB s 0xFA
  let r2 := M.readB r1.2 0xFB
  let r3 := M.readB r2.2 0xFC
  let trT := [Event.readE 0xFA r1.1, Event.readE 0xFB r2.1, Event.readE 0xFC r3.1]
  if r1.1 < 0 ∨ r2.1 < 0 ∨ r3.1 < 0 then
    ⟨Except.error ShowErr.temperatureReadFailed, data, r3.2, trT⟩
  else
    let adc_T := assembleADC r1.1 r2.1 r3.1
    let tf := compensate_T data adc_T
    let r4 := M.readB r3.2 0xF7
    let r5 := M.readB r4.2 0xF8
    let r6 := M.readB r5.2 0xF9
    let tr := trT ++ [Event.readE 0xF7 r4.1, Event.readE 0xF8 r5.1, Event.readE 0xF9 r6.1]
    if r4.1 < 0 ∨ r5.1 < 0 ∨ r6.1 < 0 then
      ⟨Except.error ShowErr.pressureReadFailed, data, r6.2, tr⟩
    else
      let adc_P := assembleADC r4.1 r5.1 r6.1
      if pressure_var1 data tf.1 = 0 then
        ⟨Except.ok (Int.tdiv tf.2 100, 0), data, r6.2, tr⟩
      else
        ⟨Except.ok (Int.tdiv tf.2 100, Int.tdiv (compensate_P data tf.1 adc_P) 256), data, r6.2, tr⟩

/-- The NVM-copy completion poll (lines 212-219):
`do { status = read(0xF3); msleep(1); } while ((status & 0x01) && --tries > 0)`
with `tries` as the fuel (10 in the driver).  Returns the final model state and
the trace of the loop body's operations. -/
def nvmPoll (M : I2CModel σ) : σ → Nat → σ × List Event
  | s, 0 => (s, [])
  | s, Nat.succ t =>
    let r := M.readB s 0xF3
    if u8ofInt r.1 % 2 = 1 ∧ 0 < t then
      let rest := nvmPoll M r.2 t
      (rest.1, Event.readE 0xF3 r.1 :: Event.sleepE 1 :: rest.2)
    else (r.2, [Event.readE 0xF3 r.1, Event.sleepE 1])

/-- Result of `bmp280_probe`: the returned errno (0 on success), the
clientdata installed by the probe (if execution reached the allocation), the
final model state and the trace. -/
structure ProbeOut (σ : Type) where
  ret : Int
  clientData : Option bmp280_data
  fin : σ
  trace : List Event

/-- `bmp280_probe` (lines 188-283): chip-ID check (truncation of the bus
return to `u8`, accept only 0x58, else `-ENODEV` = -19), soft reset write
`0xE0 := 0xB6` then `msleep(5)`, NVM-copy poll with 10 tries, ctrl_meas write
`0xF4 := 0x2F`, config write `0xF5 := 0x48` (each failed write returns
`-EIO` = -5), the twelve calibration reads (unchecked, exactly as in the
source), sysfs attribute creation, and success. -/
def bmp280_probe (M : I2CModel σ) (s : σ) : ProbeOut σ :=
  let r0 := M.readB s 0xD0
  let chip_id := u8ofInt r0.1
  if chip_id ≠ 0x58 then
    ⟨-19, none, r0.2, [Event.readE 0xD0 r0.1]⟩
  else
    let w1 := M.writeB r0.2 0xE0 0xB6
    if w1.1 < 0 then
      ⟨-5, none, w1.2, [Event.readE 0xD0 r0.1, Event.writeE 0xE0 0xB6 w1.1]⟩
    else
      let p := nvmPoll M w1.2 10
      let pre := [Event.readE 0xD0 r0.1, Event.writeE 0xE0 0xB6 w1.1, Event.sleepE 5] ++ p.2
      let w2 := M.writeB p.1 0xF4 0x2F
      if w2.1 < 0 then
        ⟨-5, none, w2.2, pre ++ [Event.writeE 0xF4 0x2F w2.1]⟩
      else
        let w3 := M.writeB w2.2 0xF5 0x48
        if w3.1 < 0 then
          ⟨-5, none, w3.2, pre ++ [Event.writeE 0xF4 0x2F w2.1, Event.writeE 0xF5 0x48 w3.1]⟩
        else
          let c1 := read_u16_from_i2c M w3.2 0x88
          let c2 := read_s16_from_i2c M c1.2.1 0x8A
          let c3 := read_s16_from_i2c M c2.2.1 0x8C
          let c4 := read_u16_from_i2c M c3.2.1 0x8E
          let c5 := read_s16_from_i2c M c4.2.1 0x90
          let c6 := read_s16_from_i2c M c5.2.1 0x92
          let c7 := read_s16_from_i2c M c6.2.1 0x94
          let c8 := read_s16_from_i2c M c7.2.1 0x96
          let c9 := read_s16_from_i2c M c8.2.1 0x98
          let c10 := read_s16_from_i2c M c9.2.1 0x9A
          let c11 := read_s16_from_i2c M c10.2.1 0x9C
          let c12 := read_s16_from_i2c M c11.2.1 0x9E
          let data : bmp280_data :=
            ⟨c1.1, c2.1, c3.1, c4.1, c5.1, c6.1, c7.1, c8.1, c9.1, c10.1, c11.1, c12.1⟩
          let cf := M.createFileR c12.2.1
          let tr := pre ++ [Event.writeE 0xF4 0x2F w2.1, Event.writeE 0xF5 0x48 w3.1]
            ++ c1.2.2 ++ c2.2.2 ++ c3.2.2 ++ c4.2.2 ++ c5.2.2 ++ c6.2.2
            ++ c7.2.2 ++ c8.2.2 ++ c9.2.2 ++ c10.2.2 ++ c11.2.2 ++ c12.2.2
            ++ [Event.createFileE]
          if cf.1 < 0 then ⟨-5, some data, cf.2, tr⟩
          else ⟨0, some data, cf.2, tr⟩

/-- `bmp280_remove` (lines 304-312): writes the sleep-mode byte `0xF4 := 0x00`
(result ignored) and then removes the sysfs attribute. -/
def bmp280_remove (M : I2CModel σ) (s : σ) : σ × List Event :=
  let w := M.writeB s 0xF4 0x00
  (w.2, [Event.writeE 0xF4 0x00 w.1, Event.removeFileE])

/-- Projection of a trace to its writes (address, value written). -/
def writesOf (tr : List Event) : List (Nat × Nat) :=
  tr.filterMap fun e =>
    match e with
    | Event.writeE a v _ => some (a, v)
    | _ => none

/-- Whether an event is a register read. -/
def isReadE : Event → Bool
  | Event.readE _ _ => true
  | _ => false

/-- Number of register reads in a trace. -/
def readCount (tr : List Event) : Nat := tr.countP isReadE

/-! ### Concrete bus models used to evaluate the driver -/

/-- Bus whose every read fails with `-EIO` (-5). -/
def failModel : I2CModel Unit where
  readB := fun s _ => (-5, s)
  writeB := fun s _ _ => (0, s)
  createFileR := fun s => (0, s)

/-- Bus whose every read returns the byte 0xFF. -/
def ffModel : I2CModel Unit where
  readB := fun s _ => (0xFF, s)
  writeB := fun s _ _ => (0, s)
  createFileR := fun s => (0, s)

/-- Bus returning the byte 0x34 at register 0x88 and 0x12 everywhere else. -/
def leModel : I2CModel Unit where
  readB := fun s a => (if a = 0x88 then 0x34 else 0x12, s)
  writeB := fun s _ _ => (0, s)
  createFileR := fun s => (0, s)

/-- Healthy device: chip ID 0x58, idle status, successful writes, and the
Bosch worked example's raw ADC bytes (adc_T = 519888, adc_P = 415148). -/
def okModel : I2CModel Unit where
  readB := fun s a =>
    (if a = 0xD0 then 0x58
     else if a = 0xFA then 0x7E else if a = 0xFB then 0xED else if a = 0xFC then 0
     else if a = 0xF7 then 0x65 else if a = 0xF8 then 0x5A else if a = 0xF9 then 0xC0
     else 0, s)
  writeB := fun s _ _ => (0, s)
  createFileR := fun s => (0, s)

/-- Healthy device except that the calibration LSB read at 0x88 fails. -/
def calFailModel : I2CModel Unit where
  readB := fun s a => (if a = 0xD0 then 0x58 else if a = 0x88 then -5 else 0, s)
  writeB := fun s _ _ => (0, s)
  createFileR := fun s => (0, s)

/-- Device answering chip ID 0x60 (a BME280, say). -/
def badChipModel : I2CModel Unit where
  readB := fun s _ => (0x60, s)
  writeB := fun s _ _ => (0, s)
  createFileR := fun s => (0, s)

/-- Bus on which only the temperature MSB read (0xFA) fails. -/
def tempFailModel : I2CModel Unit where
  readB := fun s a => (if a = 0xFA then -5 else 0, s)
  writeB := fun s _ _ => (0, s)
  createFileR := fun s => (0, s)

/-- Bus on which only the pressure MSB read (0xF7) fails. -/
def pressFailModel : I2CModel Unit where
  readB := fun s a => (if a = 0xF7 then -5 else 0, s)
  writeB := fun s _ _ => (0, s)
  createFileR := fun s => (0, s)

/-- The Bosch datasheet's worked-example calibration constants. -/
def boschCal : bmp280_data :=
  ⟨27504, 26435, -1000, 36477, -10685, 3024, 2855, 140, -7, 15500, -14600, 6000⟩

/-- Calibration whose `dig_P1 = 0` drives the pressure stage's `var1` to 0. -/
def zeroP1Cal : bmp280_data :=
  ⟨27504, 26435, -1000, 0, 0, 0, 0, 0, 0, 0, 0, 0⟩

/-! ### Helper lemmas -/

/-- Assembling two in-range bytes with `(msb <<< 8) ||| lsb` is the
little-endian value `msb * 256 + lsb`. -/
lemma decode_bytes_eq (lsb msb : Int) (hl0 : 0 ≤ lsb) (hl1 : lsb < 256)
    (hm0 : 0 ≤ msb) (_hm1 : msb < 256) :
    Int.ofNat ((msb.toNat <<< 8) ||| lsb.toNat) = msb * 256 + lsb := by
  have hm : msb.toNat <<< 8 = 2 ^ 8 * msb.toNat := by
    rw [Nat.shiftLeft_eq]; ring
  have hl : lsb.toNat < 2 ^ 8 := by omega
  rw [hm, ← Nat.mul_add_lt_is_or hl]
  have hcast : Int.ofNat (2 ^ 8 * msb.toNat + lsb.toNat) =
      ((2 ^ 8 * msb.toNat + lsb.toNat : Nat) : Int) := rfl
  rw [hcast]
  push_cast
  omega

/-- `toU16` is the identity on values already in `[0, 65536)`. -/
lemma toU16_eq_of_lt {v : Int} (h0 : 0 ≤ v) (h1 : v < 65536) : toU16 v = v :=
  Int.emod_eq_of_lt h0 h1

/-! ### Trace bookkeeping lemmas -/

lemma writesOf_nil : writesOf [] = [] := rfl

lemma writesOf_append (xs ys : List Event) :
    writesOf (xs ++ ys) = writesOf xs ++ writesOf ys :=
  List.filterMap_append xs ys _

lemma writesOf_cons_readE (a : Nat) (v : Int) (tr : List Event) :
    writesOf (Event.readE a v :: tr) = writesOf tr := rfl

lemma writesOf_cons_sleepE (n : Nat) (tr : List Event) :
    writesOf (Event.sleepE n :: tr) = writesOf tr := rfl

lemma writesOf_cons_createFileE (tr : List Event) :
    writesOf (Event.createFileE :: tr) = writesOf tr := rfl

lemma writesOf_cons_writeE (a v : Nat) (r : Int) (tr : List Event) :
    writesOf (Event.writeE a v r :: tr) = (a, v) :: writesOf tr := rfl

lemma writesOf_read_u16 (M : I2CModel σ) (s : σ) (a : Nat) :
    writesOf (read_u16_from_i2c M s a).2.2 = [] := rfl

lemma writesOf_read_s16 (M : I2CModel σ) (s : σ) (a : Nat) :
    writesOf (read_s16_from_i2c M s a).2.2 = [] := rfl

lemma writesOf_nvmPoll (M : I2CModel σ) : ∀ (n : Nat) (s : σ),
    writesOf (nvmPoll M s n).2 = [] := by
  intro n
  induction n with
  | zero => intro s; rfl
  | succ t ih =>
    intro s
    by_cases h : u8ofInt (M.readB s 0xF3).1 % 2 = 1 ∧ 0 < t
    · simp only [nvmPoll, if_pos h, writesOf_cons_readE, writesOf_cons_sleepE]
      exact ih (M.readB s 0xF3).2
    · simp only [nvmPoll, if_neg h, writesOf_cons_readE, writesOf_cons_sleepE, writesOf_nil]

lemma readCount_nvmPoll_le (M : I2CModel σ) : ∀ (n : Nat) (s : σ),
    readCount (nvmPoll M s n).2 ≤ n := by
  intro n
  induction n with
  | zero => intro s; simp [nvmPoll, readCount]
  | succ t ih =>
    intro s
    by_cases h : u8ofInt (M.readB s 0xF3).1 % 2 = 1 ∧ 0 < t
    · have hrec := ih (M.readB s 0xF3).2
      simp only [nvmPoll, if_pos h]
      simp only [readCount, List.countP_cons, isReadE] at *
      simp at *
      omega
    · simp [nvmPoll, if_neg h, readCount, List.countP_cons, isReadE]

end BMP280

/-! ### Claim theorems -/

namespace BMP280

/-- C10: on every detach, `bmp280_remove` writes the sleep-mode byte 0x00 to
the measurement-control register 0xF4 and only then removes the exposed sysfs
attribute: its trace is exactly the write followed by the removal. -/
theorem C10_sleep_write_before_release : ∀ (σ : Type) (M : I2CModel σ) (s : σ),
    (bmp280_remove M s).2 =
      [Event.writeE 0xF4 0x00 (M.writeB s 0xF4 0x00).1, Event.removeFileE] :=
  fun _ _ _ => rfl

/-- C4: a successful read of the bytes 0xFF/0xFF returns exactly the same
value as a transport failure (0xFFFF for `read_u16_from_i2c`, -1 for
`read_s16_from_i2c`), so the caller cannot distinguish the two by the return
value alone. -/
theorem C4_sentinel_ambiguity :
    (read_u16_from_i2c ffModel () 0x88).1 = (read_u16_from_i2c failModel () 0x88).1 ∧
    (read_u16_from_i2c failModel () 0x88).1 = 65535 ∧
    (read_s16_from_i2c ffModel () 0x8A).1 = (read_s16_from_i2c failModel () 0x8A).1 ∧
    (read_s16_from_i2c failModel () 0x8A).1 = -1 ∧
    0 ≤ (ffModel.readB () 0x88).1 ∧ (failModel.readB () 0x88).1 < 0 := by
  decide

/-- C3 (code bug): on a device whose calibration LSB read at register 0x88
fails at the transport level (and everything else succeeds), `bmp280_probe`
does NOT fail: it stores the failure sentinel 0xFFFF as `dig_T1`, creates the
sysfs attribute and returns 0 (success), contradicting the claim that any
calibration read failure prevents DeviceHandle creation. -/
theorem C3_calibration_failure_ignored :
    (bmp280_probe calFailModel ()).ret = 0 ∧
    (bmp280_probe calFailModel ()).clientData =
      some ⟨65535, 0, 0, 0, 0, 0, 0, 0, 0, 0, 0, 0⟩ ∧
    (calFailModel.readB () 0x88).1 < 0 := by
  refine ⟨rfl, rfl, by decide⟩

/-- C6: for every pair of in-range bytes read from consecutive calibration
registers, decoding is little-endian: the unsigned helper returns
`(msb <<< 8) ||| lsb = msb * 256 + lsb` and the signed helper returns its
16-bit sign extension. -/
theorem C6_little_endian_decode : ∀ (σ : Type) (M : I2CModel σ) (s : σ) (addr : Nat)
    (lsb msb : Int) (s1 s2 : σ),
    M.readB s addr = (lsb, s1) → M.readB s1 (addr + 1) = (msb, s2) →
    0 ≤ lsb → lsb < 256 → 0 ≤ msb → msb < 256 →
    (read_u16_from_i2c M s addr).1 = msb * 256 + lsb ∧
    (read_s16_from_i2c M s addr).1 = toS16 (msb * 256 + lsb) := by
  intro σ M s addr lsb msb s1 s2 h1 h2 hl0 hl1 hm0 hm1
  have hne : ¬(lsb < 0 ∨ msb < 0) := by omega
  have hdec := decode_bytes_eq lsb msb hl0 hl1 hm0 hm1
  constructor
  · simp only [read_u16_from_i2c, h1, h2]
    rw [if_neg hne, hdec]
    exact toU16_eq_of_lt (by nlinarith) (by nlinarith)
  · simp only [read_s16_from_i2c, h1, h2]
    rw [if_neg hne, hdec]

/-- Witness for C6: `decode(lsb=0x34, msb=0x12) = 0x1234` on the unsigned
helper, and `decode(lsb=0xFF, msb=0xFF) = -1` on the signed helper. -/
theorem C6_little_endian_decode_witness :
    (read_u16_from_i2c leModel () 0x88).1 = 0x1234 ∧
    (read_s16_from_i2c ffModel () 0x8A).1 = -1 := by
  have hu := C6_little_endian_decode Unit leModel () 0x88 0x34 0x12 () ()
    rfl rfl (by decide) (by decide) (by decide) (by decide)
  have hs := C6_little_endian_decode Unit ffModel () 0x8A 0xFF 0xFF () ()
    rfl rfl (by decide) (by decide) (by decide) (by decide)
  exact ⟨hu.1.trans (by decide), hs.2.trans (by decide)⟩

/-- C1: for every calibration set and successfully read raw sample, the
acquisition computes temperature by the two-stage fixed-point formula of the
spec (`spec_compensate_T`), exposing `T/100`; and on the Bosch worked example
(`dig_T1=27504, dig_T2=26435, dig_T3=-1000, adc_T=519888`) the formula yields
exactly `t_fine = 128422` and `T = 2508`. -/
theorem C1_temperature_formula :
    (∀ (d : bmp280_data) (adc : Int),
        compensate_T d adc = spec_compensate_T d.dig_T1 d.dig_T2 d.dig_T3 adc) ∧
    spec_compensate_T 27504 26435 (-1000) 519888 = (128422, 2508) ∧
    compensate_T boschCal 519888 = (128422, 2508) ∧
    ∀ (σ : Type) (M : I2CModel σ) (s : σ) (d : bmp280_data)
      (b1 b2 b3 b4 b5 b6 : Int) (s1 s2 s3 s4 s5 s6 : σ),
      M.readB s 0xFA = (b1, s1) → M.readB s1 0xFB = (b2, s2) → M.readB s2 0xFC = (b3, s3) →
      M.readB s3 0xF7 = (b4, s4) → M.readB s4 0xF8 = (b5, s5) → M.readB s5 0xF9 = (b6, s6) →
      0 ≤ b1 → 0 ≤ b2 → 0 ≤ b3 → 0 ≤ b4 → 0 ≤ b5 → 0 ≤ b6 →
      (pressureAndTemperature_show M s d).res =
        Except.ok
          (Int.tdiv (spec_compensate_T d.dig_T1 d.dig_T2 d.dig_T3 (assembleADC b1 b2 b3)).2 100,
           if pressure_var1 d (spec_compensate_T d.dig_T1 d.dig_T2 d.dig_T3 (assembleADC b1 b2 b3)).1 = 0
           then 0
           else Int.tdiv
             (compensate_P d (spec_compensate_T d.dig_T1 d.dig_T2 d.dig_T3 (assembleADC b1 b2 b3)).1
               (assembleADC b4 b5 b6)) 256) := by
  refine ⟨fun d adc => rfl, by decide, by decide, ?_⟩
  intro σ M s d b1 b2 b3 b4 b5 b6 s1 s2 s3 s4 s5 s6 h1 h2 h3 h4 h5 h6 g1 g2 g3 g4 g5 g6
  have hT : ¬(b1 < 0 ∨ b2 < 0 ∨ b3 < 0) := by omega
  have hP : ¬(b4 < 0 ∨ b5 < 0 ∨ b6 < 0) := by omega
  simp only [pressureAndTemperature_show, h1, h2, h3, h4, h5, h6]
  rw [if_neg hT, if_neg hP]
  by_cases hg : pressure_var1 d (compensate_T d (assembleADC b1 b2 b3)).1 = 0
  · rw [if_pos hg]
    have hg' : pressure_var1 d
        (spec_compensate_T d.dig_T1 d.dig_T2 d.dig_T3 (assembleADC b1 b2 b3)).1 = 0 := hg
    rw [if_pos hg']
    rfl
  · rw [if_neg hg]
    have hg' : ¬ pressure_var1 d
        (spec_compensate_T d.dig_T1 d.dig_T2 d.dig_T3 (assembleADC b1 b2 b3)).1 = 0 := hg
    rw [if_neg hg']
    rfl

/-- Witness for C1: the Bosch worked example on a healthy device shows
25 °C and 100653 Pa. -/
theorem C1_temperature_formula_witness :
    (pressureAndTemperature_show okModel () boschCal).res = Except.ok (25, 100653) := by
  have h := C1_temperature_formula.2.2.2 Unit okModel () boschCal
    0x7E 0xED 0x00 0x65 0x5A 0xC0 () () () () () ()
    rfl rfl rfl rfl rfl rfl
    (by decide) (by decide) (by decide) (by decide) (by decide) (by decide)
  exact h.trans rfl

/-- C2: whenever the pressure stage's intermediate `var1` (after the `dig_P1`
step) is exactly 0, the acquisition takes the guarded branch: it returns
successfully (no division is reached), reports pressure as exactly 0, and
still returns the computed temperature. -/
theorem C2_division_guard : ∀ (σ : Type) (M : I2CModel σ) (s : σ) (d : bmp280_data)
    (b1 b2 b3 b4 b5 b6 : Int) (s1 s2 s3 s4 s5 s6 : σ),
    M.readB s 0xFA = (b1, s1) → M.readB s1 0xFB = (b2, s2) → M.readB s2 0xFC = (b3, s3) →
    M.readB s3 0xF7 = (b4, s4) → M.readB s4 0xF8 = (b5, s5) → M.readB s5 0xF9 = (b6, s6) →
    0 ≤ b1 → 0 ≤ b2 → 0 ≤ b3 → 0 ≤ b4 → 0 ≤ b5 → 0 ≤ b6 →
    pressure_var1 d (compensate_T d (assembleADC b1 b2 b3)).1 = 0 →
    (pressureAndTemperature_show M s d).res =
      Except.ok (Int.tdiv (compensate_T d (assembleADC b1 b2 b3)).2 100, 0) := by
  intro σ M s d b1 b2 b3 b4 b5 b6 s1 s2 s3 s4 s5 s6 h1 h2 h3 h4 h5 h6 g1 g2 g3 g4 g5 g6 hg
  have hT : ¬(b1 < 0 ∨ b2 < 0 ∨ b3 < 0) := by omega
  have hP : ¬(b4 < 0 ∨ b5 < 0 ∨ b6 < 0) := by omega
  simp only [pressureAndTemperature_show, h1, h2, h3, h4, h5, h6]
  rw [if_neg hT, if_neg hP, if_pos hg]

/-- Witness for C2: with `dig_P1 = 0` the guard fires and the driver reports
temperature 25 °C together with pressure exactly 0. -/
theorem C2_division_guard_witness :
    (pressureAndTemperature_show okModel () zeroP1Cal).res = Except.ok (25, 0) := by
  have h := C2_division_guard Unit okModel () zeroP1Cal
    0x7E 0xED 0x00 0x65 0x5A 0xC0 () () () () () ()
    rfl rfl rfl rfl rfl rfl
    (by decide) (by decide) (by decide) (by decide) (by decide) (by decide) (by decide)
  exact h.trans rfl

/-- C7: the acquisition never touches the CalibrationSet (the clientdata after
any call equals the clientdata before); a failed temperature-register read
aborts the whole acquisition with `temperatureReadFailed`, and a failed
pressure-register read (with temperature reads fine) aborts it with
`pressureReadFailed` — in both cases no partial result is returned. -/
theorem C7_acquisition_error_isolation :
    (∀ (σ : Type) (M : I2CModel σ) (s : σ) (d : bmp280_data),
      (pressureAndTemperature_show M s d).clientData = d) ∧
    (∀ (σ : Type) (M : I2CModel σ) (s : σ) (d : bmp280_data)
      (b1 b2 b3 : Int) (s1 s2 s3 : σ),
      M.readB s 0xFA = (b1, s1) → M.readB s1 0xFB = (b2, s2) → M.readB s2 0xFC = (b3, s3) →
      (b1 < 0 ∨ b2 < 0 ∨ b3 < 0) →
      (pressureAndTemperature_show M s d).res = Except.error ShowErr.temperatureReadFailed) ∧
    (∀ (σ : Type) (M : I2CModel σ) (s : σ) (d : bmp280_data)
      (b1 b2 b3 b4 b5 b6 : Int) (s1 s2 s3 s4 s5 s6 : σ),
      M.readB s 0xFA = (b1, s1) → M.readB s1 0xFB = (b2, s2) → M.readB s2 0xFC = (b3, s3) →
      M.readB s3 0xF7 = (b4, s4) → M.readB s4 0xF8 = (b5, s5) → M.readB s5 0xF9 = (b6, s6) →
      0 ≤ b1 → 0 ≤ b2 → 0 ≤ b3 → (b4 < 0 ∨ b5 < 0 ∨ b6 < 0) →
      (pressureAndTemperature_show M s d).res = Except.error ShowErr.pressureReadFailed) := by
  refine ⟨?_, ?_, ?_⟩
  · intro σ M s d
    unfold pressureAndTemperature_show
    dsimp only
    split_ifs <;> rfl
  · intro σ M s d b1 b2 b3 s1 s2 s3 h1 h2 h3 hf
    simp only [pressureAndTemperature_show, h1, h2, h3]
    rw [if_pos hf]
  · intro σ M s d b1 b2 b3 b4 b5 b6 s1 s2 s3 s4 s5 s6 h1 h2 h3 h4 h5 h6 g1 g2 g3 hf
    have hT : ¬(b1 < 0 ∨ b2 < 0 ∨ b3 < 0) := by omega
    simp only [pressureAndTemperature_show, h1, h2, h3, h4, h5, h6]
    rw [if_neg hT, if_pos hf]

/-- Witness for C7: a failing temperature MSB read yields the temperature
error, a failing pressure MSB read yields the pressure error, and in both
cases the calibration data is left unchanged. -/
theorem C7_acquisition_error_isolation_witness :
    (pressureAndTemperature_show tempFailModel () boschCal).res =
      Except.error ShowErr.temperatureReadFailed ∧
    (pressureAndTemperature_show pressFailModel () boschCal).res =
      Except.error ShowErr.pressureReadFailed ∧
    (pressureAndTemperature_show tempFailModel () boschCal).clientData = boschCal ∧
    (pressureAndTemperature_show pressFailModel () boschCal).clientData = boschCal := by
  refine ⟨?_, ?_, ?_, ?_⟩
  · exact C7_acquisition_error_isolation.2.1 Unit tempFailModel () boschCal
      (-5) 0 0 () () () rfl rfl rfl (by decide)
  · exact C7_acquisition_error_isolation.2.2 Unit pressFailModel () boschCal
      0 0 0 (-5) 0 0 () () () () () () rfl rfl rfl rfl rfl rfl
      (by decide) (by decide) (by decide) (by decide)
  · exact C7_acquisition_error_isolation.1 Unit tempFailModel () boschCal
  · exact C7_acquisition_error_isolation.1 Unit pressFailModel () boschCal

/-- C5: `bmp280_probe` returns `-ENODEV` (-19) exactly when the byte obtained
from the chip-identification register 0xD0 (the bus return truncated to `u8`,
so a negative transport sentinel becomes its low byte) is not 0x58; in that
case no clientdata is installed and the probe performs no operation beyond the
single chip-ID read. -/
theorem C5_chip_id_gate : ∀ (σ : Type) (M : I2CModel σ) (s : σ),
    ((bmp280_probe M s).ret = -19 ↔ u8ofInt (M.readB s 0xD0).1 ≠ 0x58) ∧
    (u8ofInt (M.readB s 0xD0).1 ≠ 0x58 →
      (bmp280_probe M s).clientData = none ∧
      (bmp280_probe M s).trace = [Event.readE 0xD0 (M.readB s 0xD0).1]) := by
  intro σ M s
  by_cases h : u8ofInt (M.readB s 0xD0).1 ≠ 0x58
  · have hval : bmp280_probe M s =
        ⟨-19, none, (M.readB s 0xD0).2, [Event.readE 0xD0 (M.readB s 0xD0).1]⟩ := by
      simp only [bmp280_probe, if_pos h]
    rw [hval]
    exact ⟨⟨fun _ => h, fun _ => rfl⟩, fun _ => ⟨rfl, rfl⟩⟩
  · have hne : (bmp280_probe M s).ret ≠ -19 := by
      simp only [bmp280_probe, if_neg h]
      split_ifs <;> simp
    exact ⟨⟨fun hr => absurd hr hne, fun hc => absurd hc h⟩, fun hc => absurd hc h⟩

/-- Witness for C5: chip ID 0x60 is rejected with -19, nothing is installed
and only the chip-ID read happens; a healthy 0x58 device probes to success. -/
theorem C5_chip_id_gate_witness :
    (bmp280_probe badChipModel ()).ret = -19 ∧
    (bmp280_probe badChipModel ()).clientData = none ∧
    (bmp280_probe badChipModel ()).trace = [Event.readE 0xD0 0x60] ∧
    (bmp280_probe okModel ()).ret = 0 := by
  have h := C5_chip_id_gate Unit badChipModel ()
  exact ⟨h.1.2 (by decide), (h.2 (by decide)).1, (h.2 (by decide)).2, rfl⟩

/-- C8: the NVM-copy completion poll performs at most 10 status reads
whatever the sensor answers, and exceeding the bound is a soft timeout: with
the chip-ID check and the reset write successful, the probe goes on to issue
the ctrl_meas configuration write regardless of the polled statuses. -/
theorem C8_nvm_poll_bounded :
    (∀ (σ : Type) (M : I2CModel σ) (s : σ), readCount (nvmPoll M s 10).2 ≤ 10) ∧
    (∀ (σ : Type) (M : I2CModel σ) (s : σ),
      u8ofInt (M.readB s 0xD0).1 = 0x58 →
      0 ≤ (M.writeB (M.readB s 0xD0).2 0xE0 0xB6).1 →
      (0xF4, 0x2F) ∈ writesOf (bmp280_probe M s).trace) := by
  constructor
  · intro σ M s
    exact readCount_nvmPoll_le M 10 s
  · intro σ M s hchip hw1
    have hnotne : ¬ u8ofInt (M.readB s 0xD0).1 ≠ 0x58 := by simp [hchip]
    have hnw1 : ¬ (M.writeB (M.readB s 0xD0).2 0xE0 0xB6).1 < 0 := not_lt.mpr hw1
    simp only [bmp280_probe, if_neg hnotne, if_neg hnw1]
    split_ifs <;>
      simp [writesOf_append, writesOf_cons_readE, writesOf_cons_sleepE, writesOf_cons_writeE,
        writesOf_cons_createFileE, writesOf_nil, writesOf_nvmPoll, writesOf_read_u16,
        writesOf_read_s16]

/-- Witness for C8: on a device whose status register is always busy (0xFF)
the poll still performs at most 10 reads, and on a healthy device the probe
reaches the ctrl_meas write. -/
theorem C8_nvm_poll_bounded_witness :
    readCount (nvmPoll ffModel () 10).2 ≤ 10 ∧
    (0xF4, 0x2F) ∈ writesOf (bmp280_probe okModel ()).trace :=
  ⟨C8_nvm_poll_bounded.1 Unit ffModel (),
   C8_nvm_poll_bounded.2 Unit okModel () (by decide) (by decide)⟩

/-- C9: with the chip-ID accepted, initialization performs its register writes
in order with the fixed bytes — 0xB6 to 0xE0, then a 5 ms settle sleep, then
0x2F to 0xF4, then 0x48 to 0xF5 — and each write's transport failure makes the
probe return -5 immediately, its trace ending at the failed write with no
later step run. -/
theorem C9_init_write_sequence : ∀ (σ : Type) (M : I2CModel σ) (s : σ)
    (v0 w1v w2v w3v : Int) (t0 t1 t2 t3 pS : σ) (pT : List Event),
    M.readB s 0xD0 = (v0, t0) → u8ofInt v0 = 0x58 →
    M.writeB t0 0xE0 0xB6 = (w1v, t1) →
    nvmPoll M t1 10 = (pS, pT) →
    M.writeB pS 0xF4 0x2F = (w2v, t2) →
    M.writeB t2 0xF5 0x48 = (w3v, t3) →
    (w1v < 0 →
      (bmp280_probe M s).ret = -5 ∧
      (bmp280_probe M s).trace = [Event.readE 0xD0 v0, Event.writeE 0xE0 0xB6 w1v]) ∧
    (0 ≤ w1v → w2v < 0 →
      (bmp280_probe M s).ret = -5 ∧
      (bmp280_probe M s).trace =
        [Event.readE 0xD0 v0, Event.writeE 0xE0 0xB6 w1v, Event.sleepE 5] ++ pT
          ++ [Event.writeE 0xF4 0x2F w2v]) ∧
    (0 ≤ w1v → 0 ≤ w2v → w3v < 0 →
      (bmp280_probe M s).ret = -5 ∧
      (bmp280_probe M s).trace =
        [Event.readE 0xD0 v0, Event.writeE 0xE0 0xB6 w1v, Event.sleepE 5] ++ pT
          ++ [Event.writeE 0xF4 0x2F w2v, Event.writeE 0xF5 0x48 w3v]) ∧
    (0 ≤ w1v → 0 ≤ w2v → 0 ≤ w3v →
      (bmp280_probe M s).trace.take 3 =
        [Event.readE 0xD0 v0, Event.writeE 0xE0 0xB6 w1v, Event.sleepE 5] ∧
      writesOf (bmp280_probe M s).trace = [(0xE0, 0xB6), (0xF4, 0x2F), (0xF5, 0x48)]) := by
  intro σ M s v0 w1v w2v w3v t0 t1 t2 t3 pS pT h0 hchip hw1 hp hw2 hw3
  have hnotne : ¬ u8ofInt v0 ≠ 0x58 := by simp [hchip]
  refine ⟨?_, ?_, ?_, ?_⟩
  · intro hneg
    have hval : bmp280_probe M s =
        ⟨-5, none, t1, [Event.readE 0xD0 v0, Event.writeE 0xE0 0xB6 w1v]⟩ := by
      simp only [bmp280_probe, h0, hw1, if_neg hnotne, if_pos hneg]
    rw [hval]
    exact ⟨rfl, rfl⟩
  · intro hpos1 hneg2
    have hn1 : ¬ w1v < 0 := not_lt.mpr hpos1
    have hval : bmp280_probe M s =
        ⟨-5, none, t2,
          [Event.readE 0xD0 v0, Event.writeE 0xE0 0xB6 w1v, Event.sleepE 5] ++ pT
            ++ [Event.writeE 0xF4 0x2F w2v]⟩ := by
      simp only [bmp280_probe, h0, hw1, hp, hw2, if_neg hnotne, if_neg hn1, if_pos hneg2]
    rw [hval]
    exact ⟨rfl, rfl⟩
  · intro hpos1 hpos2 hneg3
    have hn1 : ¬ w1v < 0 := not_lt.mpr hpos1
    have hn2 : ¬ w2v < 0 := not_lt.mpr hpos2
    have hval : bmp280_probe M s =
        ⟨-5, none, t3,
          [Event.readE 0xD0 v0, Event.writeE 0xE0 0xB6 w1v, Event.sleepE 5] ++ pT
            ++ [Event.writeE 0xF4 0x2F w2v, Event.writeE 0xF5 0x48 w3v]⟩ := by
      simp only [bmp280_probe, h0, hw1, hp, hw2, hw3, if_neg hnotne, if_neg hn1, if_neg hn2,
        if_pos hneg3]
    rw [hval]
    exact ⟨rfl, rfl⟩
  · intro hpos1 hpos2 hpos3
    have hn1 : ¬ w1v < 0 := not_lt.mpr hpos1
    have hn2 : ¬ w2v < 0 := not_lt.mpr hpos2
    have hn3 : ¬ w3v < 0 := not_lt.mpr hpos3
    have hpt : writesOf pT = [] := by
      have hwp := writesOf_nvmPoll M 10 t1
      rw [hp] at hwp
      exact hwp
    simp only [bmp280_probe, h0, hw1, hp, hw2, hw3, if_neg hnotne, if_neg hn1, if_neg hn2,
      if_neg hn3]
    split_ifs <;>
    · constructor
      · rfl
      · simp [writesOf_append, writesOf_cons_readE, writesOf_cons_sleepE, writesOf_cons_writeE,
          writesOf_cons_createFileE, writesOf_nil, writesOf_read_u16, writesOf_read_s16, hpt]

/-- Witness for C9: a healthy device's probe trace starts with the chip-ID
read, the reset write and the 5 ms sleep, and its write sequence is exactly
0xE0:=0xB6, 0xF4:=0x2F, 0xF5:=0x48. -/
theorem C9_init_write_sequence_witness :
    (bmp280_probe okModel ()).trace.take 3 =
      [Event.readE 0xD0 0x58, Event.writeE 0xE0 0xB6 0, Event.sleepE 5] ∧
    writesOf (bmp280_probe okModel ()).trace = [(0xE0, 0xB6), (0xF4, 0x2F), (0xF5, 0x48)] := by
  have h := C9_init_write_sequence Unit okModel () 0x58 0 0 0 () () () () ()
    [Event.readE 0xF3 0, Event.sleepE 1] rfl (by decide) rfl rfl rfl rfl
  exact h.2.2.2 (by decide) (by decide) (by decide)

end BMP280
